import Mathlib

/-!
# Verification of the open-voice provider routing and fallback core

Shallow embedding of the router components of the `open-voice` repository:

* `src/services/speech_engine_router.py` — `SpeechEngineRouter`
* `src/services/speech_registry.py` — `SpeechEngineRegistry`
* `src/llm/services/llm_router.py` — `LLMRouter`
* `src/llm/clients/cerebras_client.py` — `MockLLMClient`
* `src/llm/clients/groq_client.py` / `openai_client.py` — structured-output handling
* `src/llm/services/llm_text_processor.py` — `LLMTextProcessor`
* the silence gate (modelled from the spec; it has no implementation in the source tree)

Python strings are modelled as `List Char`; a Python call that may raise an
exception is modelled by `PyRes`.  External collaborators (settings manager,
speech engines, LLM clients, prompt loader) are modelled by records holding the
observable outcome of each call the embedded code makes during one invocation.
-/

namespace OpenVoice

/-! ## Python string model -/

/-- Python `str` values, modelled as lists of characters. -/
abbrev Str := List Char

/-- Build a `Str` from a Lean string literal (for concrete inputs). -/
def pys (s : String) : Str := s.toList

/-- Characters stripped by Python `str.strip()` (ASCII whitespace). -/
def pyIsSpace (c : Char) : Bool :=
  c == ' ' || c == '\t' || c == '\n' || c == '\r' || c == '\x0b' || c == '\x0c'

/-- Python `str.strip()`: remove leading and trailing whitespace. -/
def pyStrip (s : Str) : Str :=
  ((s.dropWhile pyIsSpace).reverse.dropWhile pyIsSpace).reverse

/-- Python truthiness of a string: non-empty. -/
def truthy (s : Str) : Bool := !s.isEmpty

/-- Python `str.lower()` (ASCII case folding, as used on the ASCII
error-signature strings in the source). -/
def pyLower (s : Str) : Str := s.map Char.toLower

/-- Python `needle in haystack` substring test. -/
def isSubstr (needle : Str) : Str → Bool
  | [] => needle.isPrefixOf []
  | c :: rest => needle.isPrefixOf (c :: rest) || isSubstr needle rest

/-- Truthiness of an optional API key exactly as the routers test it:
`if key and key.strip():` (a `None` key is falsy). -/
def keyTruthy : Option Str → Bool
  | none => false
  | some s => truthy s && truthy (pyStrip s)

/-! ## Python calls that may raise -/

/-- Outcome of a Python call: it either raises some exception or returns a
value.  The routers never inspect exception payloads, so they are not
modelled. -/
inductive PyRes (α : Type) where
  | raise : PyRes α
  | ok : α → PyRes α
deriving DecidableEq

/-! ## Speech engine router — `src/services/speech_engine_router.py`

`transcribe_with_fallback` mutates `self._last_engine_info`; the embedding
returns the list of writes made to that field during the call (the source
performs exactly one such write on every path, which the embedding makes
visible). -/

/-- The `_last_engine_info` dictionary of `SpeechEngineRouter`. -/
structure EngineInfo where
  name : Str
  provider : Str
  success : Bool
  error : Option Str
deriving DecidableEq

/-- Observable behaviour of one constructed speech engine for the audio buffer
of the current call: the outcome of `engine.transcribe(audio_data)`. -/
structure EngineBeh where
  transcribe : PyRes Str
deriving DecidableEq

/-- A candidate of the fallback loop: the engine name paired with the outcome
of `engine_creator()` (which may itself raise, e.g. inside
`create_engine_by_name`). -/
abbrev SpeechCand := Str × PyRes EngineBeh

/-- The `error_indicators` list from `SpeechEngineRouter._is_error_result`. -/
def error_indicators : List Str :=
  [pys "error:", pys "failed", pys "recognition error",
   pys "service error", pys "could not understand", pys "speech not clear"]

/-- Embedding of `SpeechEngineRouter._is_error_result` (lines 129-144). -/
def is_error_result (result : Str) : Bool :=
  if !truthy result then true
  else error_indicators.any (fun indicator => isSubstr indicator (pyLower result))

/-- The acceptance test of the fallback loop (line 62):
`if result and result.strip() and not self._is_error_result(result):`. -/
def acceptResult (result : Str) : Bool :=
  truthy result && truthy (pyStrip result) && !is_error_result result

/-- Embedding of `SpeechEngineRouter._get_engine_provider` (lines 146-153). -/
def get_engine_provider (engine_name : Str) : Str :=
  (((([(pys "OpenAI Whisper", pys "OpenAI"),
       (pys "Google Speech", pys "Google"),
       (pys "Mock Speech", pys "Mock")] : List (Str × Str)).find?
        (fun kv => kv.1 == engine_name)).map Prod.snd)).getD (pys "Unknown")

/-- Diagnostics written on the empty-audio early return (lines 30-35). -/
def noAudioInfo : EngineInfo :=
  ⟨pys "None", pys "None", false, some (pys "No audio data provided")⟩

/-- Diagnostics written on the empty-candidate-list early return (lines 42-47). -/
def noEnginesInfo : EngineInfo :=
  ⟨pys "None", pys "None", false, some (pys "No speech engines available")⟩

/-- Diagnostics written when every candidate is exhausted (lines 83-88). -/
def allEnginesFailedInfo : EngineInfo :=
  ⟨pys "All engines", pys "Multiple", false, some (pys "All speech engines failed")⟩

/-- One iteration of the fallback loop body (lines 51-79): create the engine,
transcribe, test the result; `none` means the `except`/invalid-result paths
that fall through to the next candidate. -/
def speechAttempt (cand : SpeechCand) : Option Str :=
  match cand.2 with
  | .raise => none
  | .ok engine =>
    match engine.transcribe with
    | .raise => none
    | .ok result => if acceptResult result then some result else none

/-- The fallback loop (lines 50-89): first accepted candidate wins and writes
success diagnostics; exhaustion writes the all-failed diagnostics and yields
the sentinel string. -/
def speechLoop : List SpeechCand → Str × List EngineInfo
  | [] =>
    (pys "Speech recognition failed - all engines unavailable", [allEnginesFailedInfo])
  | cand :: rest =>
    match speechAttempt cand with
    | some result =>
      (pyStrip result, [⟨cand.1, get_engine_provider cand.1, true, none⟩])
    | none => speechLoop rest

/-- Embedding of `SpeechEngineRouter.transcribe_with_fallback` (lines 27-89), with the
candidate list (the value of `_get_engines_in_priority_order()` together with
the behaviour of each creator) passed explicitly.  Returns the result string
and the list of diagnostics writes made during the call. -/
def transcribe_with_fallback (audio_data : List Nat) (engines_to_try : List SpeechCand) :
    Str × List EngineInfo :=
  if audio_data.isEmpty then (pys "No audio data received", [noAudioInfo])
  else if engines_to_try.isEmpty then (pys "No speech engines available", [noEnginesInfo])
  else speechLoop engines_to_try

/-- Embedding of `SpeechEngineRouter._get_engines_in_priority_order` (lines 91-127): the
names of the candidates, in order, as a function of
`settings_manager.get_openai_key()`. -/
def get_engines_in_priority_order (openai_key : Option Str) : List Str :=
  (if keyTruthy openai_key then [pys "OpenAI Whisper"] else [])
    ++ [pys "Google Speech", pys "Mock Speech"]

/-! ## Speech engine registry — `src/services/speech_registry.py`

The registry holds `self._engines : Dict[str, (factory, priority)]`; a Python
dict iterates in insertion (registration) order, so the state is modelled as a
list of entries in registration order (dict keys are unique).  Factories are
abstract collaborators; per the invariant in the spec (and all concrete
factories in `src/engines/speech_factories.py`, which catch internally),
`is_available` never raises, while `get_engine_info` may raise (the registry
guards it with `try`/`except`). -/

/-- Abstract speech engine factory (`ISpeechEngineFactory` collaborator). -/
structure SpeechFactoryBeh (S E I : Type) where
  is_available : S → Bool
  create_engine : S → E
  get_engine_info : PyRes I

/-- One registered entry of `SpeechEngineRegistry._engines`. -/
structure RegEntry (S E I : Type) where
  name : Str
  factory : SpeechFactoryBeh S E I
  priority : Int

/-- An element of the list built by `get_available_engines` (lines 68-92):
either the factory's info dict updated with `available` and `priority`, or the
fallback dict appended by the `except` branch (whose `available` is `False`
and which carries the name and priority). -/
inductive AvailEntry (I : Type) where
  | info (engine_info : I) (available : Bool) (priority : Int)
  | errorInfo (name : Str) (priority : Int)

/-- The `"priority"` key of an output entry (set in both branches). -/
def AvailEntry.priority : AvailEntry I → Int
  | .info _ _ p => p
  | .errorInfo _ p => p

/-- The entry built for one registered engine by the loop body of
`get_available_engines` (lines 72-88). -/
def mk_avail_entry (settings : S) (e : RegEntry S E I) : AvailEntry I :=
  match e.factory.get_engine_info with
  | .ok i => .info i (e.factory.is_available settings) e.priority
  | .raise => .errorInfo e.name e.priority

/-- Comparison used by `available_engines.sort(key=lambda x: x.get("priority", 0),
reverse=True)` (line 91): `a` may precede `b` iff `a`'s priority is at least
`b`'s.  Python's sort is a stable merge sort; `List.mergeSort` with this
comparator has exactly those semantics. -/
def entry_le (a b : AvailEntry I) : Bool := decide (b.priority ≤ a.priority)

/-- Embedding of `SpeechEngineRegistry.get_available_engines` (lines 68-92). -/
def get_available_engines (engines : List (RegEntry S E I)) (settings : S) :
    List (AvailEntry I) :=
  (engines.map (mk_avail_entry settings)).mergeSort entry_le

/-- The two failure modes of `create_engine_by_name`: `ValueError` for an
unknown name (line 55), `RuntimeError` for an unavailable engine (line 62). -/
inductive CreateEngineError where
  | not_registered
  | not_available
deriving DecidableEq

/-- Dict lookup `self._engines[name]` (keys are unique in a dict; on the list
model this is the first entry with the given name). -/
def lookup_engine (engines : List (RegEntry S E I)) (name : Str) :
    Option (RegEntry S E I) :=
  engines.find? (fun e => e.name == name)

/-- Embedding of `SpeechEngineRegistry.create_engine_by_name` (lines 49-66). -/
def create_engine_by_name (engines : List (RegEntry S E I)) (name : Str)
    (settings : S) : Except CreateEngineError E :=
  match lookup_engine engines name with
  | none => .error .not_registered
  | some e =>
    if e.factory.is_available settings then .ok (e.factory.create_engine settings)
    else .error .not_available

/-! ## LLM router — `src/llm/services/llm_router.py` -/

/-- The `_last_llm_info` dictionary of `LLMRouter`. -/
structure LLMInfo where
  provider : Str
  model : Str
  success : Bool
  error : Option Str
deriving DecidableEq

/-- The dictionary returned by `llm_client.get_model_info()`, restricted to the
keys the router reads (`model_info.get("provider", llm_name)` and
`model_info.get("model", "unknown")`); `none` models an absent key. -/
structure ClientModelInfo where
  provider : Option Str
  model : Option Str
deriving DecidableEq

/-- Observable behaviour of one created LLM client during one router call:
the outcomes of `is_available()`, of `generate(system_prompt, user_input)` for
the call's fixed arguments, and of `get_model_info()`. -/
structure ClientBeh where
  is_available : PyRes Bool
  generate : PyRes Str
  get_model_info : PyRes ClientModelInfo
deriving DecidableEq

/-- A candidate of the LLM fallback loop: name and outcome of `llm_creator()`. -/
abbrev LLMCand := Str × PyRes ClientBeh

/-- Diagnostics written on the empty-input early return (lines 28-33). -/
def noInputInfo : LLMInfo :=
  ⟨pys "None", pys "None", false, some (pys "No input text provided")⟩

/-- Diagnostics written on the empty-candidate-list early return (lines 40-45). -/
def noLLMsInfo : LLMInfo :=
  ⟨pys "None", pys "None", false, some (pys "No LLM clients available")⟩

/-- Diagnostics written when every candidate is exhausted (lines 87-92). -/
def allLLMFailedInfo : LLMInfo :=
  ⟨pys "All providers", pys "Multiple", false, some (pys "All LLM clients failed")⟩

/-- One iteration of the LLM fallback loop body (lines 49-83): create the
client, check availability, generate, test the result, read the model info;
`none` means the `continue` paths (exception, unavailable, empty result). -/
def llmAttempt (cand : LLMCand) : Option (Str × LLMInfo) :=
  match cand.2 with
  | .raise => none
  | .ok c =>
    match c.is_available with
    | .raise => none
    | .ok false => none
    | .ok true =>
      match c.generate with
      | .raise => none
      | .ok result =>
        if truthy result && truthy (pyStrip result) then
          match c.get_model_info with
          | .raise => none
          | .ok mi =>
            some (pyStrip result,
              ⟨mi.provider.getD cand.1, mi.model.getD (pys "unknown"), true, none⟩)
        else none

/-- The LLM fallback loop (lines 48-93): first accepted candidate wins;
exhaustion returns the original input with the all-failed diagnostics. -/
def llmLoop (user_input : Str) : List LLMCand → Str × LLMInfo
  | [] => (user_input, allLLMFailedInfo)
  | cand :: rest =>
    match llmAttempt cand with
    | some p => p
    | none => llmLoop user_input rest

/-- Embedding of `LLMRouter.process_with_best_llm` (lines 25-93), with the candidate list
(the value of `_get_llms_in_priority_order()` together with the behaviour of
each creator) passed explicitly.  Returns the result string and the value of
`_last_llm_info` after the call (every path writes it exactly once). -/
def process_with_best_llm (user_input : Str) (llms_to_try : List LLMCand) :
    Str × LLMInfo :=
  if !(truthy user_input && truthy (pyStrip user_input)) then (user_input, noInputInfo)
  else if llms_to_try.isEmpty then (user_input, noLLMsInfo)
  else llmLoop user_input llms_to_try

/-- Embedding of `LLMRouter._get_llms_in_priority_order` (lines 95-109): candidate names in
order, as a function of `settings_manager.get_cerebras_key()`. -/
def get_llms_in_priority_order (cerebras_key : Option Str) : List Str :=
  (if keyTruthy cerebras_key then [pys "Cerebras"] else []) ++ [pys "Mock LLM"]

/-! ## Mock LLM client — `src/llm/clients/cerebras_client.py`, lines 98-139 -/

/-- Python `str.capitalize()`: first character upper-cased, the rest
lower-cased (ASCII). -/
def pyCapitalize : Str → Str
  | [] => []
  | c :: rest => c.toUpper :: rest.map Char.toLower

/-- Python `str.replace(old, new)`: replace all non-overlapping occurrences
left to right (for an empty `old`, `new` is inserted around every character). -/
def pyReplace (old new : Str) (s : Str) : Str :=
  if old = [] then new ++ s.flatMap (fun c => c :: new)
  else
    match s with
    | [] => []
    | c :: rest =>
      if old.isPrefixOf (c :: rest) then
        new ++ pyReplace old new (List.drop (old.length - 1) rest)
      else
        c :: pyReplace old new rest
termination_by s.length
decreasing_by
  · simp only [List.length_cons]
    have := List.length_drop (old.length - 1) rest
    omega
  · simp

/-- Decimal rendering of the `call_count` interpolated by the f-string. -/
def natToStr (n : Nat) : Str := Nat.toDigits 10 n

/-- Embedding of `MockLLMClient.is_available` (lines 127-129). -/
def mockLLM_is_available : Bool := true

/-- Embedding of `MockLLMClient.generate` (lines 104-125).  `call_count` is the value of
`self.call_count` after the increment at the top of the method (a fresh client,
as created by the router's `llm_creator`, reaches its first `generate` with
`call_count = 1`). -/
def mockLLM_generate (call_count : Nat) (system_prompt user_input : Str) : Str :=
  if isSubstr (pys "grammar") (pyLower system_prompt) then
    pyCapitalize (pyStrip user_input) ++ pys "."
  else if isSubstr (pys "style") (pyLower system_prompt) then
    pyStrip (pyReplace (pys "uh") (pys "") (pyReplace (pys "um") (pys "") user_input))
  else if isSubstr (pys "custom") (pyLower system_prompt) then
    pyLower user_input
  else
    pys "[LLM-" ++ natToStr call_count ++ pys "] " ++ pyStrip user_input

/-! ## Structured-output clients — `src/llm/clients/groq_client.py` lines 42-68
and `src/llm/clients/openai_client.py` lines 61-87 (the two blocks are
line-for-line identical).

The provider's chat-completion content string is cleaned of Markdown fences
and passed to `json.loads`; the outcome of that external parse is the input of
the embedded post-processing.  Python values flowing out of `json.loads` are
modelled by `JsonVal`. -/

/-- A Python value produced by `json.loads`. -/
inductive JsonVal where
  | obj (fields : List (Str × JsonVal))
  | arr (elems : List JsonVal)
  | jstr (s : Str)
  | jnum (n : Int)
  | jbool (b : Bool)
  | jnull

/-- Dict key lookup (JSON object keys are unique). -/
def json_lookup (fields : List (Str × JsonVal)) (key : Str) : Option JsonVal :=
  (fields.find? (fun kv => kv.1 == key)).map Prod.snd

/-- Python `key in parsed_response`: key membership for a dict, substring test
for a str, element equality for a list, `TypeError` for other values. -/
def py_contains_key (v : JsonVal) (key : Str) : PyRes Bool :=
  match v with
  | .obj fields => .ok (json_lookup fields key).isSome
  | .jstr s => .ok (isSubstr key s)
  | .arr elems =>
    .ok (elems.any (fun e => match e with | .jstr s => s == key | _ => false))
  | _ => .raise

/-- Python `parsed_response[key]` for a string key: dict value (the `in` guard
rules out `KeyError`), `TypeError` for any other value. -/
def py_getitem_key (v : JsonVal) (key : Str) : PyRes JsonVal :=
  match v with
  | .obj fields =>
    match json_lookup fields key with
    | some x => .ok x
    | none => .raise
  | _ => .raise

/-- The response post-processing shared by `GroqLLMClient.generate` and
`OpenAILLMClient.generate` (the inner `try` that parses the JSON content and
extracts `output`).  `parsed` is the outcome of `json.loads` on the cleaned
content.  `json.JSONDecodeError` is caught and the original user input
returned; a `TypeError` raised by the membership tests or the subscript
escapes the inner `try` and is re-raised by the outer handler. -/
def handle_structured_response (parsed : PyRes JsonVal) (user_input : Str) :
    PyRes JsonVal :=
  match parsed with
  | .raise => .ok (.jstr user_input)
  | .ok v =>
    match py_contains_key v (pys "thoughts") with
    | .raise => .raise
    | .ok _ =>
      match py_contains_key v (pys "output") with
      | .raise => .raise
      | .ok true =>
        match py_getitem_key v (pys "output") with
        | .ok output_text => .ok output_text
        | .raise => .raise
      | .ok false => .ok (.jstr user_input)

/-! ## Text processor — `src/llm/services/llm_text_processor.py` -/

/-- Observable behaviour of the collaborators of `LLMTextProcessor` during one
`process_text` call: the prompt loader, the settings manager, and the LLM
router.  `router_is_available` is a plain `Bool`: both `ILLMRouter`
implementations catch internally (`LLMRouter.is_available`, lines 141-147) and
the availability-never-throws invariant is part of the collaborator contract. -/
structure RewriteEnv where
  router_is_available : Bool
  get_transcription_prompt : PyRes Str
  get_custom_instructions : PyRes (Option Str)
  router_process : Str → Str → PyRes Str
  get_last_used_llm_info : PyRes LLMInfo

/-- The `custom_section` string built at line 47 for custom instructions `c`. -/
def custom_section (c : Str) : Str :=
  pys "\n\n## Additional Instructions\n\nAlso apply the following custom user preferences / instructions to the text: "
    ++ c

/-- The `final_prompt` computation (lines 44-54):
`if custom_instructions and custom_instructions.strip():` append the custom
section, else keep the base prompt (a `None` value is falsy). -/
def mk_final_prompt (base_prompt : Str) (ci : Option Str) : Str :=
  match ci with
  | some c =>
    if truthy c && truthy (pyStrip c) then base_prompt ++ custom_section c
    else base_prompt
  | none => base_prompt

/-- Embedding of `LLMTextProcessor.process_text` (lines 20-87).  Every collaborator failure
point is modelled, so totality of this function is the no-raise property of
the source boundary. -/
def process_text (env : RewriteEnv) (text : Str) : Str :=
  if !(truthy text && truthy (pyStrip text)) then text
  else
    let original_text := pyStrip text
    if !env.router_is_available then original_text
    else
      match env.get_transcription_prompt with
      | .raise => original_text
      | .ok base_prompt =>
        match env.get_custom_instructions with
        | .raise => original_text
        | .ok ci =>
          match env.router_process (mk_final_prompt base_prompt ci) original_text with
          | .raise => original_text
          | .ok processed_text =>
            match env.get_last_used_llm_info with
            | .raise => original_text
            | .ok _ =>
              if truthy processed_text && truthy (pyStrip processed_text)
                  && decide (processed_text ≠ original_text) then
                pyStrip processed_text
              else original_text

/-- Whether some step of the rewrite chain fails for the given original text:
prompt loading raises, the settings read raises, the router call raises, the
diagnostics read raises, or the result validation rejects the router's result
(this mirrors the chain of `process_text` step by step). -/
def rewrite_step_fails (env : RewriteEnv) (original_text : Str) : Bool :=
  match env.get_transcription_prompt with
  | .raise => true
  | .ok base_prompt =>
    match env.get_custom_instructions with
    | .raise => true
    | .ok ci =>
      match env.router_process (mk_final_prompt base_prompt ci) original_text with
      | .raise => true
      | .ok processed_text =>
        match env.get_last_used_llm_info with
        | .raise => true
        | .ok _ =>
          !(truthy processed_text && truthy (pyStrip processed_text)
            && decide (processed_text ≠ original_text))

/-! ## Silence gate -/

/-- Modelled from the spec: no silence gate exists under `src/`; spec §4.5
specifies `SilenceGate.isSilent` over raw little-endian 16-bit PCM bytes.
This decodes consecutive byte pairs into signed 16-bit samples (a trailing odd
byte yields no sample). -/
def bytesToSamples : List Nat → List Int
  | lo :: hi :: rest =>
    (if lo + 256 * hi < 32768 then (lo + 256 * hi : Int)
     else (lo + 256 * hi : Int) - 65536) :: bytesToSamples rest
  | _ => []

/-- Modelled from the spec: the RMS silence threshold (~500 on a ±32767 scale). -/
def silence_rms_threshold : Nat := 500

/-- Modelled from the spec: the minimum dynamic range (~100). -/
def min_dynamic_range : Nat := 100

/-- Modelled from the spec: `SilenceGate.isSilent` (spec §4.5).  Fewer than one
sample classifies silent; `RMS < 500` classifies silent, stated exactly over
the integers as `sumOfSquares < 500² · n` (equivalent to
`sqrt(sumOfSquares/n) < 500` for `n > 0`); otherwise a dynamic range
`max|s| − min|s| < 100` classifies silent; otherwise speech-bearing. -/
def isSilent (pcm_bytes : List Nat) : Bool :=
  let samples := bytesToSamples pcm_bytes
  if samples.length < 1 then true
  else
    let sumSq := (samples.map (fun s => (s * s).toNat)).sum
    if sumSq < silence_rms_threshold ^ 2 * samples.length then true
    else
      let mags := samples.map Int.natAbs
      let mx := mags.foldr max 0
      let mn := mags.foldr min (2 ^ 16)
      if mx - mn < min_dynamic_range then true
      else false

/-! ## Basic lemmas about the string model -/

theorem truthy_iff {s : Str} : truthy s = true ↔ s ≠ [] := by
  cases s <;> simp [truthy]

theorem pyStrip_nil : pyStrip [] = [] := rfl

theorem truthy_of_truthy_pyStrip {s : Str} (h : truthy (pyStrip s) = true) :
    truthy s = true := by
  cases s with
  | nil => simp [pyStrip, truthy] at h
  | cons c rest => simp [truthy]

/-! ## Claim theorems -/

/-- Claim C1: For every input string and for every router, prompt-loader and
settings collaborator, `LLMTextProcessor.process_text` never raises past its
boundary (the embedding `process_text` is a total function over all
collaborator outcomes, including every raising outcome): whenever any step of
the rewrite chain fails — prompt loading, settings read, router call, or
result validation (`rewrite_step_fails`) — it returns the original trimmed
input text, and `process_text ""` returns `""`. -/
theorem C1_process_text_failsafe (env : RewriteEnv) (text : Str) :
    process_text env (pys "") = pys "" ∧
    (truthy (pyStrip text) = true → rewrite_step_fails env (pyStrip text) = true →
      process_text env text = pyStrip text) := by
  constructor
  · rfl
  · intro ht hf
    have htx : truthy text = true := truthy_of_truthy_pyStrip ht
    obtain ⟨avail, tp, gci, rp, gli⟩ := env
    cases avail
    · simp [process_text, htx, ht]
    · cases tp with
      | raise => simp [process_text, htx, ht]
      | ok base_prompt =>
        cases gci with
        | raise => simp [process_text, htx, ht]
        | ok ci =>
          cases h3 : rp (mk_final_prompt base_prompt ci) (pyStrip text) with
          | raise => simp [process_text, htx, ht, h3]
          | ok processed_text =>
            cases gli with
            | raise => simp [process_text, htx, ht, h3]
            | ok info =>
              cases hc : (truthy processed_text && truthy (pyStrip processed_text)
                  && decide (processed_text ≠ pyStrip text)) with
              | true =>
                exfalso
                simp only [rewrite_step_fails, h3, hc, Bool.not_true] at hf
                exact absurd hf (by decide)
              | false =>
                simp only [process_text, htx, ht, h3, hc, Bool.and_self, Bool.not_true,
                  Bool.false_eq_true, if_false]

/-- Witness for C1: a concrete environment whose prompt loading raises; the
trimmed original text is returned, and the empty string maps to itself. -/
theorem C1_witness :
    truthy (pyStrip (pys " hi ")) = true ∧
    rewrite_step_fails ⟨true, .raise, .ok none, fun _ _ => .raise, .raise⟩
      (pyStrip (pys " hi ")) = true ∧
    process_text ⟨true, .raise, .ok none, fun _ _ => .raise, .raise⟩ (pys " hi ")
      = pys "hi" :=
  ⟨by decide, by rfl,
   (C1_process_text_failsafe ⟨true, .raise, .ok none, fun _ _ => .raise, .raise⟩
     (pys " hi ")).2 (by decide) (by rfl)⟩

/-- A candidate of the LLM fallback loop that either raises an exception (in
`llm_creator()`, `is_available()`, `generate()` or `get_model_info()`), is
unavailable, or returns an empty/whitespace-only result. -/
def llm_candidate_fails (cand : LLMCand) : Prop :=
  cand.2 = .raise ∨
  ∃ c, cand.2 = .ok c ∧
    (c.is_available = .raise ∨ c.is_available = .ok false ∨
     c.generate = .raise ∨ c.get_model_info = .raise ∨
     ∃ r, c.generate = .ok r ∧ pyStrip r = [])

theorem llmAttempt_eq_none_of_fails {cand : LLMCand}
    (h : llm_candidate_fails cand) : llmAttempt cand = none := by
  obtain ⟨name, cr⟩ := cand
  rcases h with h | ⟨c, hc, h⟩
  · subst h; rfl
  · subst hc
    rcases h with h | h | h | h | ⟨r, hr, hs⟩
    · simp [llmAttempt, h]
    · simp [llmAttempt, h]
    · cases hA : c.is_available with
      | raise => simp [llmAttempt, hA]
      | ok b =>
        cases b
        · simp [llmAttempt, hA]
        · simp [llmAttempt, hA, h]
    · cases hA : c.is_available with
      | raise => simp [llmAttempt, hA]
      | ok b =>
        cases b
        · simp [llmAttempt, hA]
        · cases hG : c.generate with
          | raise => simp [llmAttempt, hA, hG]
          | ok r =>
            cases hcond : truthy r && truthy (pyStrip r)
            · simp [llmAttempt, hA, hG, hcond]
            · simp [llmAttempt, hA, hG, hcond, h]
    · cases hA : c.is_available with
      | raise => simp [llmAttempt, hA]
      | ok b =>
        cases b
        · simp [llmAttempt, hA]
        · simp [llmAttempt, hA, hr, hs, truthy]

/-- Claim C2: For every non-empty, non-whitespace input text, if every LLM
candidate in priority-fallback mode either raises an exception, is
unavailable, or returns an empty/whitespace-only result, then
`LLMRouter.process_with_best_llm` returns the original input string unchanged
— never a sentinel error string — and the last-used-LLM diagnostics record
`success = false` (exactly the all-failed record when the candidate list is
non-empty, as it always is in the source). -/
theorem C2_llm_total_failure_returns_input (user_input : Str) (cands : List LLMCand)
    (hin : truthy (pyStrip user_input) = true)
    (hall : ∀ cand ∈ cands, llm_candidate_fails cand) :
    (process_with_best_llm user_input cands).1 = user_input ∧
    (process_with_best_llm user_input cands).2.success = false ∧
    (cands ≠ [] → (process_with_best_llm user_input cands).2 = allLLMFailedInfo) := by
  have hloop : ∀ l : List LLMCand, (∀ cand ∈ l, llm_candidate_fails cand) →
      llmLoop user_input l = (user_input, allLLMFailedInfo) := by
    intro l
    induction l with
    | nil => intro _; rfl
    | cons x xs ih =>
      intro hl
      have hx := llmAttempt_eq_none_of_fails (hl x (by simp))
      simp only [llmLoop, hx]
      exact ih (fun c hc => hl c (by simp [hc]))
  unfold process_with_best_llm
  rw [truthy_of_truthy_pyStrip hin, hin]
  simp only [Bool.and_self, Bool.not_true, Bool.false_eq_true, if_false]
  cases cands with
  | nil => simp [noLLMsInfo]
  | cons x xs =>
    rw [if_neg (by simp)]
    rw [hloop _ hall]
    exact ⟨rfl, rfl, fun _ => rfl⟩

/-- Witness for C2: one candidate whose creator raises and one whose result is
whitespace-only; the original input comes back and diagnostics show failure. -/
theorem C2_witness :
    truthy (pyStrip (pys "hello")) = true ∧
    (process_with_best_llm (pys "hello")
      [(pys "Cerebras", .raise),
       (pys "Mock LLM", .ok ⟨.ok true, .ok (pys "  "), .ok ⟨none, none⟩⟩)]).1
      = pys "hello" ∧
    (process_with_best_llm (pys "hello")
      [(pys "Cerebras", .raise),
       (pys "Mock LLM", .ok ⟨.ok true, .ok (pys "  "), .ok ⟨none, none⟩⟩)]).2.success
      = false := by
  have h := C2_llm_total_failure_returns_input (pys "hello")
    [(pys "Cerebras", .raise),
     (pys "Mock LLM", .ok ⟨.ok true, .ok (pys "  "), .ok ⟨none, none⟩⟩)]
    (by decide)
    (by
      intro cand hc
      rcases List.mem_cons.mp hc with h1 | h1
      · exact Or.inl (by rw [h1])
      · rcases List.mem_cons.mp h1 with h2 | h2
        · refine Or.inr ⟨⟨.ok true, .ok (pys "  "), .ok ⟨none, none⟩⟩, by rw [h2], ?_⟩
          exact Or.inr (Or.inr (Or.inr (Or.inr ⟨pys "  ", rfl, by decide⟩)))
        · simp at h2)
  exact ⟨by decide, h.1, h.2.1⟩

/-- Claim C3: In the speech router's priority-fallback mode, a candidate's
result is accepted iff it is non-empty after trimming and contains none of the
fixed error-signature substrings case-insensitively; and if a higher-priority
candidate A returns a result containing `"could not understand"`, the router
proceeds to the next candidate B and, when B returns a valid result, returns
B's trimmed result with diagnostics naming B (`success = true`), not A. -/
theorem C3_error_signature_fallback (audio : List Nat) (nA nB : Str)
    (eA eB : EngineBeh) (rA rB : Str) (rest : List SpeechCand)
    (haudio : audio ≠ [])
    (htA : eA.transcribe = .ok rA)
    (hAerr : isSubstr (pys "could not understand") (pyLower rA) = true)
    (htB : eB.transcribe = .ok rB)
    (hBok : acceptResult rB = true) :
    transcribe_with_fallback audio ((nA, .ok eA) :: (nB, .ok eB) :: rest)
      = (pyStrip rB, [⟨nB, get_engine_provider nB, true, none⟩]) ∧
    ∀ r : Str, acceptResult r = true ↔
      (pyStrip r ≠ [] ∧ ∀ ind ∈ error_indicators, isSubstr ind (pyLower r) = false) := by
  constructor
  · have herrA : is_error_result rA = true := by
      unfold is_error_result
      cases htr : truthy rA
      · simp
      · simp only [Bool.not_true, Bool.false_eq_true, if_false]
        exact List.any_eq_true.mpr ⟨pys "could not understand", by decide, hAerr⟩
    have haccA : acceptResult rA = false := by
      simp [acceptResult, herrA]
    cases audio with
    | nil => exact absurd rfl haudio
    | cons a as =>
      simp only [transcribe_with_fallback, List.isEmpty_cons, Bool.false_eq_true,
        if_false, speechLoop, speechAttempt, htA, htB, haccA, hBok, if_true]
  · intro r
    constructor
    · intro hacc
      have hparts := hacc
      unfold acceptResult at hparts
      rw [Bool.and_eq_true, Bool.and_eq_true] at hparts
      obtain ⟨⟨htr, hts⟩, hne⟩ := hparts
      have herr : is_error_result r = false := by
        cases h : is_error_result r
        · rfl
        · rw [h] at hne; exact absurd hne (by decide)
      unfold is_error_result at herr
      rw [htr] at herr
      simp only [Bool.not_true, Bool.false_eq_true, if_false] at herr
      refine ⟨truthy_iff.mp hts, ?_⟩
      intro ind hind
      have := List.any_eq_false.mp herr ind hind
      simpa using this
    · rintro ⟨hs, hall⟩
      have htr : truthy r = true := by
        refine truthy_iff.mpr ?_
        intro h
        exact hs (by rw [h]; rfl)
      have hts : truthy (pyStrip r) = true := truthy_iff.mpr hs
      have herr : is_error_result r = false := by
        unfold is_error_result
        rw [htr]
        simp only [Bool.not_true, Bool.false_eq_true, if_false]
        refine List.any_eq_false.mpr ?_
        intro ind hind
        simp [hall ind hind]
      simp [acceptResult, htr, hts, herr]

/-- Witness for C3: candidate A answers "Could not understand audio", B
answers "hello world"; the router returns B's result and B's diagnostics. -/
theorem C3_witness :
    transcribe_with_fallback [1]
      [(pys "Google Speech", .ok ⟨.ok (pys "Could not understand audio")⟩),
       (pys "Mock Speech", .ok ⟨.ok (pys "hello world")⟩)]
      = (pyStrip (pys "hello world"),
         [⟨pys "Mock Speech", get_engine_provider (pys "Mock Speech"), true, none⟩]) ∧
    acceptResult (pys "hello world") = true :=
  ⟨(C3_error_signature_fallback [1] (pys "Google Speech") (pys "Mock Speech")
      ⟨.ok (pys "Could not understand audio")⟩ ⟨.ok (pys "hello world")⟩
      (pys "Could not understand audio") (pys "hello world") []
      (by decide) rfl (by decide) rfl (by decide)).1,
   by decide⟩

/-- A candidate of the speech fallback loop that either raises an exception
(in `engine_creator()` or `transcribe()`) or returns an invalid (empty or
error-signature) result. -/
def speech_candidate_fails (cand : SpeechCand) : Prop :=
  cand.2 = .raise ∨
  ∃ e, cand.2 = .ok e ∧
    (e.transcribe = .raise ∨
     ∃ r, e.transcribe = .ok r ∧ (pyStrip r = [] ∨ is_error_result r = true))

theorem speechAttempt_eq_none_of_fails {cand : SpeechCand}
    (h : speech_candidate_fails cand) : speechAttempt cand = none := by
  obtain ⟨name, cr⟩ := cand
  rcases h with h | ⟨e, he, h⟩
  · subst h; rfl
  · subst he
    rcases h with h | ⟨r, hr, h⟩
    · simp [speechAttempt, h]
    · rcases h with h | h
      · simp [speechAttempt, hr, acceptResult, h, truthy]
      · simp [speechAttempt, hr, acceptResult, h]

/-- Claim C4: For every non-empty audio input, when every candidate in the
speech router's priority-fallback loop either raises or returns an invalid
result, `transcribe_with_fallback` does not raise (the embedding is total):
it returns the fixed all-engines-failed sentinel string, and its single
diagnostics write has `success = false` and error `"All speech engines
failed"`.  (The candidate list is required non-empty, as
`_get_engines_in_priority_order` always guarantees.) -/
theorem C4_all_engines_failed (audio : List Nat) (cands : List SpeechCand)
    (haudio : audio ≠ []) (hne : cands ≠ [])
    (hall : ∀ cand ∈ cands, speech_candidate_fails cand) :
    transcribe_with_fallback audio cands
      = (pys "Speech recognition failed - all engines unavailable",
         [allEnginesFailedInfo]) ∧
    allEnginesFailedInfo.success = false ∧
    allEnginesFailedInfo.error = some (pys "All speech engines failed") := by
  refine ⟨?_, rfl, rfl⟩
  have hloop : ∀ l : List SpeechCand, (∀ cand ∈ l, speech_candidate_fails cand) →
      speechLoop l = (pys "Speech recognition failed - all engines unavailable",
        [allEnginesFailedInfo]) := by
    intro l
    induction l with
    | nil => intro _; rfl
    | cons x xs ih =>
      intro hl
      simp only [speechLoop, speechAttempt_eq_none_of_fails (hl x (by simp))]
      exact ih (fun c hc => hl c (by simp [hc]))
  cases audio with
  | nil => exact absurd rfl haudio
  | cons a as =>
    cases cands with
    | nil => exact absurd rfl hne
    | cons x xs =>
      simpa [transcribe_with_fallback] using hloop (x :: xs) hall

/-- Witness for C4: one raising candidate and one error-signature result. -/
theorem C4_witness :
    transcribe_with_fallback [1]
      [(pys "Google Speech", .ok ⟨.raise⟩),
       (pys "Mock Speech", .ok ⟨.ok (pys "Recognition ERROR occurred")⟩)]
      = (pys "Speech recognition failed - all engines unavailable",
         [allEnginesFailedInfo]) :=
  (C4_all_engines_failed [1]
    [(pys "Google Speech", .ok ⟨.raise⟩),
     (pys "Mock Speech", .ok ⟨.ok (pys "Recognition ERROR occurred")⟩)]
    (by decide) (by decide)
    (by
      intro cand hc
      rcases List.mem_cons.mp hc with h1 | h1
      · exact Or.inr ⟨⟨.raise⟩, by rw [h1], Or.inl rfl⟩
      · rcases List.mem_cons.mp h1 with h2 | h2
        · exact Or.inr ⟨⟨.ok (pys "Recognition ERROR occurred")⟩, by rw [h2],
            Or.inr ⟨pys "Recognition ERROR occurred", rfl, Or.inr (by decide)⟩⟩
        · simp at h2)).1

theorem entry_le_trans {I : Type} (a b c : AvailEntry I)
    (hab : entry_le a b) (hbc : entry_le b c) : entry_le a c := by
  simp only [entry_le, decide_eq_true_eq] at *
  omega

theorem entry_le_total {I : Type} (a b : AvailEntry I) :
    entry_le a b || entry_le b a := by
  simp only [entry_le, Bool.or_eq_true, decide_eq_true_eq]
  omega

/-- Claim C5: For every set of registered speech engine factories and every
settings state, `SpeechEngineRegistry.get_available_engines` returns one entry
per registered engine (a permutation of the per-engine entries, taken in
registration order), sorted by priority descending; and the sort is stable:
for each priority value, the subsequence of entries having that priority is
exactly the registration-order subsequence. -/
theorem C5_ranked_available_stable_sort (S E I : Type)
    (engines : List (RegEntry S E I)) (settings : S) :
    List.Perm (get_available_engines engines settings)
      (engines.map (mk_avail_entry settings)) ∧
    (get_available_engines engines settings).Pairwise
      (fun a b => b.priority ≤ a.priority) ∧
    ∀ p : Int,
      (get_available_engines engines settings).filter (fun e => e.priority == p)
        = (engines.map (mk_avail_entry settings)).filter (fun e => e.priority == p) := by
  refine ⟨List.mergeSort_perm _ _, ?_, ?_⟩
  · have h := @List.sorted_mergeSort (AvailEntry I) entry_le
      (fun a b c => entry_le_trans a b c) (fun a b => entry_le_total a b)
      (engines.map (mk_avail_entry settings))
    exact h.imp (fun hab => by simpa [entry_le] using hab)
  · intro p
    have hmemq : ∀ a ∈ (engines.map (mk_avail_entry settings)).filter
        (fun e => e.priority == p), (a.priority == p) = true :=
      fun a ha => (List.mem_filter.mp ha).2
    have hpair : ((engines.map (mk_avail_entry settings)).filter
        (fun e => e.priority == p)).Pairwise (fun a b => entry_le a b = true) := by
      refine List.pairwise_of_forall_mem_list ?_
      intro a ha b hb
      have hap : a.priority = p := by simpa using hmemq a ha
      have hbp : b.priority = p := by simpa using hmemq b hb
      simp [entry_le, hap, hbp]
    have hsub : List.Sublist
        ((engines.map (mk_avail_entry settings)).filter (fun e => e.priority == p))
        (List.mergeSort (engines.map (mk_avail_entry settings)) entry_le) :=
      List.sublist_mergeSort (fun a b c => entry_le_trans a b c)
        (fun a b => entry_le_total a b) hpair (List.filter_sublist _)
    have hsub2 := hsub.filter (fun e => e.priority == p)
    rw [List.filter_eq_self.mpr hmemq] at hsub2
    have hperm : List.Perm
        ((List.mergeSort (engines.map (mk_avail_entry settings))
          entry_le).filter (fun e => e.priority == p))
        ((engines.map (mk_avail_entry settings)).filter (fun e => e.priority == p)) :=
      (List.mergeSort_perm _ _).filter _
    exact (hsub2.eq_of_length hperm.length_eq.symm).symm

/-- Claim C6: For every registry state, settings state, and name string,
`create_engine_by_name` fails with the not-registered error when the name is
unknown, fails with the not-available error when the name is registered but
its factory's availability check returns false, and otherwise returns the
engine constructed by that factory. -/
theorem C6_create_engine_by_name_cases (S E I : Type)
    (engines : List (RegEntry S E I)) (name : Str) (settings : S) :
    (lookup_engine engines name = none →
      create_engine_by_name engines name settings = .error .not_registered) ∧
    (∀ e, lookup_engine engines name = some e →
      e.factory.is_available settings = false →
      create_engine_by_name engines name settings = .error .not_available) ∧
    (∀ e, lookup_engine engines name = some e →
      e.factory.is_available settings = true →
      create_engine_by_name engines name settings
        = .ok (e.factory.create_engine settings)) := by
  refine ⟨?_, ?_, ?_⟩
  · intro h
    simp [create_engine_by_name, h]
  · intro e he hav
    simp [create_engine_by_name, he, hav]
  · intro e he hav
    simp [create_engine_by_name, he, hav]

/-- Witness for C6: a two-entry registry (one available factory, one
unavailable) exercising all three branches. -/
theorem C6_witness :
    create_engine_by_name
      ([⟨pys "google", ⟨fun _ => true, fun _ => (), .ok ()⟩, (10 : Int)⟩,
        ⟨pys "openai", ⟨fun _ => false, fun _ => (), .ok ()⟩, (100 : Int)⟩]
        : List (RegEntry Unit Unit Unit)) (pys "nope") ()
      = .error .not_registered ∧
    create_engine_by_name
      ([⟨pys "google", ⟨fun _ => true, fun _ => (), .ok ()⟩, (10 : Int)⟩,
        ⟨pys "openai", ⟨fun _ => false, fun _ => (), .ok ()⟩, (100 : Int)⟩]
        : List (RegEntry Unit Unit Unit)) (pys "openai") ()
      = .error .not_available ∧
    create_engine_by_name
      ([⟨pys "google", ⟨fun _ => true, fun _ => (), .ok ()⟩, (10 : Int)⟩,
        ⟨pys "openai", ⟨fun _ => false, fun _ => (), .ok ()⟩, (100 : Int)⟩]
        : List (RegEntry Unit Unit Unit)) (pys "google") ()
      = .ok () :=
  ⟨(C6_create_engine_by_name_cases Unit Unit Unit _ (pys "nope") ()).1 (by rfl),
   (C6_create_engine_by_name_cases Unit Unit Unit _ (pys "openai") ()).2.1
     ⟨pys "openai", ⟨fun _ => false, fun _ => (), .ok ()⟩, (100 : Int)⟩ (by rfl) rfl,
   (C6_create_engine_by_name_cases Unit Unit Unit _ (pys "google") ()).2.2
     ⟨pys "google", ⟨fun _ => true, fun _ => (), .ok ()⟩, (10 : Int)⟩ (by rfl) rfl⟩

theorem bytesToSamples_length : ∀ pcm : List Nat,
    (bytesToSamples pcm).length = pcm.length / 2
  | [] => by simp [bytesToSamples]
  | [_] => by simp [bytesToSamples]
  | lo :: hi :: rest => by
    simp only [bytesToSamples, List.length_cons, bytesToSamples_length rest]
    omega

theorem bytesToSamples_zero : ∀ pcm : List Nat, (∀ b ∈ pcm, b = 0) →
    ∀ s ∈ bytesToSamples pcm, s = 0
  | [], _, s, hs => by simp [bytesToSamples] at hs
  | [_], _, s, hs => by simp [bytesToSamples] at hs
  | lo :: hi :: rest, h, s, hs => by
    have hlo : lo = 0 := h lo (by simp)
    have hhi : hi = 0 := h hi (by simp)
    subst hlo
    subst hhi
    simp only [bytesToSamples, List.mem_cons] at hs
    rcases hs with hs | hs
    · simpa using hs
    · exact bytesToSamples_zero rest (fun b hb => h b (by simp [hb])) s hs

/-- Claim C7 (spec-modelled: no silence gate exists under `src/`):  For every
byte sequence shorter than 2 bytes, `SilenceGate.isSilent` returns true; and
for every all-zero PCM byte buffer of length at least 2 bytes, `isSilent`
returns true, because the RMS amplitude is 0 and below the silence
threshold. -/
theorem C7_silence_gate (pcm : List Nat) :
    (pcm.length < 2 → isSilent pcm = true) ∧
    (2 ≤ pcm.length → (∀ b ∈ pcm, b = 0) → isSilent pcm = true) := by
  have hlen : (bytesToSamples pcm).length = pcm.length / 2 := bytesToSamples_length pcm
  constructor
  · intro h
    simp only [isSilent]
    rw [if_pos (show (bytesToSamples pcm).length < 1 by omega)]
  · intro hlen2 hz
    have hsum : ((bytesToSamples pcm).map (fun s => (s * s).toNat)).sum = 0 := by
      apply List.sum_eq_zero
      intro x hx
      obtain ⟨s, hs, rfl⟩ := List.mem_map.mp hx
      rw [bytesToSamples_zero pcm hz s hs]
      rfl
    have h250 : silence_rms_threshold ^ 2 = 250000 := by
      norm_num [silence_rms_threshold]
    simp only [isSilent]
    rw [if_neg (show ¬(bytesToSamples pcm).length < 1 by omega), hsum, h250,
      if_pos (show 0 < 250000 * (bytesToSamples pcm).length by omega)]

/-- Witness for C7: the empty buffer and the 2-byte all-zero buffer. -/
theorem C7_witness : isSilent [] = true ∧ isSilent [0, 0] = true :=
  ⟨(C7_silence_gate []).1 (by decide),
   (C7_silence_gate [0, 0]).2 (by decide) (by decide)⟩

/-- Claim C8 counterexample:  The claim states that the final candidate of the
LLM router's priority order returns its input unchanged for every system
prompt and input; the final candidate is `"Mock LLM"` (`MockLLMClient`), and
on its first call with the system prompt "Rewrite the transcription." and the
input "hello" its `generate` returns "[LLM-1] hello", not "hello". -/
theorem C8_counterexample :
    (get_llms_in_priority_order none).getLast? = some (pys "Mock LLM") ∧
    mockLLM_generate 1 (pys "Rewrite the transcription.") (pys "hello")
      = pys "[LLM-1] hello" ∧
    mockLLM_generate 1 (pys "Rewrite the transcription.") (pys "hello")
      ≠ pys "hello" := by
  refine ⟨rfl, ?_, ?_⟩ <;> decide

/-- Claim C8 as amended: For every settings state, the final candidate in the
LLM router's priority-fallback candidate order is `"Mock LLM"` and is always
available; its `generate`, however, applies a mock transformation rather than
returning the input unchanged: for every system prompt mentioning none of
"grammar"/"style"/"custom" and every input text, it returns the trimmed input
prefixed with a call-count tag `[LLM-N] `. -/
theorem C8_mock_terminal_fallback (cerebras_key : Option Str)
    (system_prompt user_input : Str) (call_count : Nat) :
    (get_llms_in_priority_order cerebras_key).getLast? = some (pys "Mock LLM") ∧
    mockLLM_is_available = true ∧
    (isSubstr (pys "grammar") (pyLower system_prompt) = false →
     isSubstr (pys "style") (pyLower system_prompt) = false →
     isSubstr (pys "custom") (pyLower system_prompt) = false →
     mockLLM_generate call_count system_prompt user_input
       = pys "[LLM-" ++ natToStr call_count ++ pys "] " ++ pyStrip user_input) := by
  refine ⟨?_, rfl, ?_⟩
  · unfold get_llms_in_priority_order
    cases keyTruthy cerebras_key <;> simp
  · intro h1 h2 h3
    simp [mockLLM_generate, h1, h2, h3]

/-- Witness for C8 (amended): a neutral prompt yields the tagged trimmed
input. -/
theorem C8_witness :
    mockLLM_generate 1 (pys "Rewrite.") (pys " hi ")
      = pys "[LLM-" ++ natToStr 1 ++ pys "] " ++ pyStrip (pys " hi ") :=
  (C8_mock_terminal_fallback none (pys "Rewrite.") (pys " hi ") 1).2.2
    (by decide) (by decide) (by decide)

/-- Claim C9 counterexample:  The claim's final clause says that a structured
client returning the original input (after malformed JSON or a missing
`output` field) is "treated as failure, allowing the router's accept/reject
logic to move to the next candidate".  The router accepts any non-empty
trimmed result: with a first candidate behaving exactly like such a client
(generate returns the original input "hi") and a second candidate available
with a different result, the router returns the first candidate's result with
`success = true` naming the first provider — it does not move on. -/
theorem C9_counterexample :
    handle_structured_response (.ok (.obj [])) (pys "hi") = .ok (.jstr (pys "hi")) ∧
    process_with_best_llm (pys "hi")
      [(pys "OpenAI", .ok ⟨.ok true, .ok (pys "hi"),
          .ok ⟨some (pys "OpenAI"), some (pys "gpt-4o-mini")⟩⟩),
       (pys "Mock LLM", .ok ⟨.ok true, .ok (pys "better text"),
          .ok ⟨some (pys "Mock"), some (pys "mock-llm-v1")⟩⟩)]
      = (pys "hi", ⟨pys "OpenAI", pys "gpt-4o-mini", true, none⟩) := by
  exact ⟨rfl, by decide⟩

/-- Claim C9 as amended: For each structured-output cloud LLM client (OpenAI,
Groq — the response handling blocks are line-for-line identical), when the
chat-completion content is malformed JSON or parses to a JSON object without
an `"output"` field, `generate` does not raise: it returns the original user
input.  However, the router's accept/reject logic does not treat this as
failure: since the returned original input is non-empty, a candidate behaving
this way is accepted with `success = true` — the router does not move to the
next candidate. -/
theorem C9_structured_output_fallback (parsed : PyRes JsonVal) (user_input : Str)
    (fields : List (Str × JsonVal)) (name : Str) (mi : ClientModelInfo) :
    (parsed = .raise →
      handle_structured_response parsed user_input = .ok (.jstr user_input)) ∧
    (parsed = .ok (.obj fields) → json_lookup fields (pys "output") = none →
      handle_structured_response parsed user_input = .ok (.jstr user_input)) ∧
    (truthy (pyStrip user_input) = true →
      llmAttempt (name, .ok ⟨.ok true, .ok user_input, .ok mi⟩)
        = some (pyStrip user_input,
            ⟨mi.provider.getD name, mi.model.getD (pys "unknown"), true, none⟩)) := by
  refine ⟨?_, ?_, ?_⟩
  · intro h
    subst h
    rfl
  · intro h hout
    subst h
    simp [handle_structured_response, py_contains_key, hout]
  · intro ht
    have htr := truthy_of_truthy_pyStrip ht
    simp [llmAttempt, htr, ht]

/-- Witness for C9 (amended): a decode error, an object lacking `output`, and
the acceptance of a candidate echoing the original input. -/
theorem C9_witness :
    handle_structured_response .raise (pys "hi") = .ok (.jstr (pys "hi")) ∧
    handle_structured_response (.ok (.obj [(pys "thoughts", .jstr (pys "t"))]))
      (pys "hi") = .ok (.jstr (pys "hi")) ∧
    llmAttempt (pys "Groq", .ok ⟨.ok true, .ok (pys "hi"), .ok ⟨none, none⟩⟩)
      = some (pys "hi", ⟨pys "Groq", pys "unknown", true, none⟩) :=
  ⟨(C9_structured_output_fallback .raise (pys "hi") [] (pys "x") ⟨none, none⟩).1 rfl,
   (C9_structured_output_fallback (.ok (.obj [(pys "thoughts", .jstr (pys "t"))]))
      (pys "hi") [(pys "thoughts", .jstr (pys "t"))] (pys "x") ⟨none, none⟩).2.1
      rfl (by rfl),
   (C9_structured_output_fallback .raise (pys "hi") [] (pys "Groq")
      ⟨none, none⟩).2.2 (by decide)⟩

theorem keyTruthy_iff {k : Option Str} :
    keyTruthy k = true ↔ ∃ s, k = some s ∧ pyStrip s ≠ [] := by
  cases k with
  | none => simp [keyTruthy]
  | some s =>
    simp only [keyTruthy, Bool.and_eq_true, truthy_iff, Option.some.injEq]
    constructor
    · rintro ⟨_, h2⟩
      exact ⟨s, rfl, h2⟩
    · rintro ⟨t, ht, h2⟩
      subst ht
      refine ⟨fun h => h2 (by rw [h]; rfl), h2⟩

/-- The fallback loop never writes the "no engines" diagnostics: its only
writes are a success record or the all-failed record. -/
theorem speechLoop_trace_ne (cands : List SpeechCand) :
    (speechLoop cands).2 ≠ [noEnginesInfo] := by
  induction cands with
  | nil => decide
  | cons x xs ih =>
    cases h : speechAttempt x with
    | none => simpa [speechLoop, h] using ih
    | some r => simp [speechLoop, h, noEnginesInfo]

/-- Claim C10: For every settings state, the candidate list built by
`_get_engines_in_priority_order` is non-empty: it always contains
"Google Speech" and ends with the always-available "Mock Speech", and
"OpenAI Whisper" is included (first) iff the stored OpenAI key is non-empty
after stripping whitespace; consequently, for non-empty audio input, the
early-return branch of `transcribe_with_fallback` that writes and returns
"No speech engines available" is unreachable, whatever the engine creators
do. -/
theorem C10_engines_list_nonempty (openai_key : Option Str) :
    get_engines_in_priority_order openai_key ≠ [] ∧
    pys "Google Speech" ∈ get_engines_in_priority_order openai_key ∧
    (get_engines_in_priority_order openai_key).getLast? = some (pys "Mock Speech") ∧
    ((pys "OpenAI Whisper" ∈ get_engines_in_priority_order openai_key) ↔
      ∃ s, openai_key = some s ∧ pyStrip s ≠ []) ∧
    (∀ s, openai_key = some s → pyStrip s ≠ [] →
      (get_engines_in_priority_order openai_key).head?
        = some (pys "OpenAI Whisper")) ∧
    (∀ (audio : List Nat) (beh : Str → PyRes EngineBeh), audio ≠ [] →
      (transcribe_with_fallback audio
        ((get_engines_in_priority_order openai_key).map (fun n => (n, beh n)))).2
        ≠ [noEnginesInfo]) := by
  have hiff := @keyTruthy_iff openai_key
  cases hk : keyTruthy openai_key with
  | false =>
    rw [hk] at hiff
    refine ⟨?_, ?_, ?_, ?_, ?_, ?_⟩
    · simp [get_engines_in_priority_order, hk]
    · simp [get_engines_in_priority_order, hk]
    · simp [get_engines_in_priority_order, hk]
    · rw [iff_iff_implies_and_implies] at hiff
      constructor
      · intro h
        exact absurd h (by simp [get_engines_in_priority_order, hk]; decide)
      · intro h
        exact absurd (hiff.2 h) (by decide)
    · intro s hs hstrip
      exact absurd (hiff.2 ⟨s, hs, hstrip⟩) (by decide)
    · intro audio beh haudio
      cases audio with
      | nil => exact absurd rfl haudio
      | cons a as =>
        simpa [transcribe_with_fallback, get_engines_in_priority_order, hk]
          using speechLoop_trace_ne
            ((get_engines_in_priority_order openai_key).map (fun n => (n, beh n)))
  | true =>
    rw [hk] at hiff
    refine ⟨?_, ?_, ?_, ?_, ?_, ?_⟩
    · simp [get_engines_in_priority_order, hk]
    · simp [get_engines_in_priority_order, hk]
    · simp [get_engines_in_priority_order, hk]
    · simp only [get_engines_in_priority_order, hk, if_true]
      constructor
      · intro _
        exact hiff.mp rfl
      · intro _
        simp
    · intro s hs hstrip
      simp [get_engines_in_priority_order, hk]
    · intro audio beh haudio
      cases audio with
      | nil => exact absurd rfl haudio
      | cons a as =>
        simpa [transcribe_with_fallback, get_engines_in_priority_order, hk]
          using speechLoop_trace_ne
            ((get_engines_in_priority_order openai_key).map (fun n => (n, beh n)))

/-- Witness for C10: a concrete key places OpenAI Whisper first, and with
every creator raising, the diagnostics never show "No speech engines
available". -/
theorem C10_witness :
    (get_engines_in_priority_order (some (pys "sk-123"))).head?
      = some (pys "OpenAI Whisper") ∧
    (transcribe_with_fallback [7]
      ((get_engines_in_priority_order (some (pys "sk-123"))).map
        (fun n => (n, PyRes.raise)))).2 ≠ [noEnginesInfo] :=
  ⟨(C10_engines_list_nonempty (some (pys "sk-123"))).2.2.2.2.1
      (pys "sk-123") rfl (by decide),
   (C10_engines_list_nonempty (some (pys "sk-123"))).2.2.2.2.2
      [7] (fun _ => PyRes.raise) (by decide)⟩

end OpenVoice
